import Mathlib

/-!
Shallow embedding of `src/engine/tw-frame-loop.js`.

The file models the two scheduling-primitive adapters and the `FrameLoop`
class.  Host scheduling subscriptions (`setInterval` handles and
`animationFrameWrapper` handles) are modelled by an append-only event log:
creating a subscription appends a `create` event carrying a fresh numeric id,
the kind of source (display-sync or periodic timer with its interval) and the
callback it was given; cancelling a subscription appends a `cancel` event for
its id (cancelling an id that is already cancelled appends nothing, matching
the host behaviour that `clearInterval`/`cancelAnimationFrame` on a dead id is
a no-op).  A subscription is *live* when it has been created and not
cancelled.  JS numbers that the claims quantify over are modelled as `ℚ`;
callback references (`runtime._step.bind(runtime)` and
`runtime._renderInterpolatedPositions.bind(runtime)`) are opaque tags, bound
once at construction.  `runtime.currentStepTime`, the only runtime field the
loop writes, is inlined as a state field.
-/

/-- The role a scheduling source was created for: the step callback or the
interpolated-render callback. -/
inductive Role where
  | step
  | interp
deriving DecidableEq

/-- The kind of scheduling source: display-sync (`animationFrameWrapper`) or a
periodic timer (`setInterval`) with its interval in milliseconds. -/
inductive SourceKind where
  | displaySync
  | periodicTimer (intervalMs : ℚ)
deriving DecidableEq

/-- One scheduling subscription as created by `FrameLoop.start`. -/
structure Source where
  id : Nat
  role : Role
  kind : SourceKind
  callback : Nat
deriving DecidableEq

/-- An entry of the subscription event log. -/
inductive Ev where
  | create (src : Source)
  | cancel (id : Nat)
deriving DecidableEq

/-- The sources created so far, in creation order. -/
def createdOf (evs : List Ev) : List Source :=
  evs.filterMap fun e =>
    match e with
    | .create src => some src
    | .cancel _ => none

/-- The ids cancelled so far. -/
def cancelledOf (evs : List Ev) : List Nat :=
  evs.filterMap fun e =>
    match e with
    | .create _ => none
    | .cancel i => some i

/-- The sources of role `r` that are live (created and not cancelled). -/
def liveOf (evs : List Ev) (r : Role) : List Source :=
  (createdOf evs).filter fun src => decide (src.role = r ∧ src.id ∉ cancelledOf evs)

/-- State of one `FrameLoop` instance together with its event log.  The
fields `running`, `framerate`, `interpolation`, `stepCallback`,
`interpolationCallback`, `stepInterval` (`_stepInterval`),
`interpolationAnimation` (`_interpolationAnimation`) and `stepAnimation`
(`_stepAnimation`) mirror the JS object; `currentStepTime` mirrors
`runtime.currentStepTime`. -/
structure FLState where
  running : Bool
  framerate : ℚ
  interpolation : Bool
  currentStepTime : ℚ
  stepCallback : Nat
  interpolationCallback : Nat
  stepInterval : Option Nat
  interpolationAnimation : Option Nat
  stepAnimation : Option Nat
  events : List Ev
  nextId : Nat
deriving DecidableEq

namespace FLState

/-- Live sources of role `r` of this instance. -/
def live (s : FLState) (r : Role) : List Source :=
  liveOf s.events r

/-- Cancel the host subscription with id `i` (no-op when already dead). -/
def cancelId (s : FLState) (i : Nat) : FLState :=
  if i ∈ cancelledOf s.events then s else { s with events := s.events ++ [.cancel i] }

/-- Create a fresh host subscription of role `r`, kind `k`, callback `cb`. -/
def addSource (s : FLState) (r : Role) (k : SourceKind) (cb : Nat) : FLState :=
  { s with
    events := s.events ++ [.create ⟨s.nextId, r, k, cb⟩]
    nextId := s.nextId + 1 }

/-- Cancel the subscription held in an optional handle field
(`clearInterval(x)` with `x` possibly `null`, or `if (x) x.cancel()`). -/
def cancelOpt (s : FLState) (o : Option Nat) : FLState :=
  match o with
  | none => s
  | some i => s.cancelId i

/-- `FrameLoop.stop`:
`running = false; clearInterval(_stepInterval);
if (_interpolationAnimation) _interpolationAnimation.cancel();
if (_stepAnimation) _stepAnimation.cancel();
_interpolationAnimation = null; _stepAnimation = null;`.
Note `_stepInterval` itself is not reset. -/
def stop (s : FLState) : FLState :=
  let s1 : FLState := { s with running := false }
  let s2 : FLState := s1.cancelOpt s1.stepInterval
  let s3 : FLState := s2.cancelOpt s2.interpolationAnimation
  let s4 : FLState := s3.cancelOpt s3.stepAnimation
  { s4 with interpolationAnimation := none, stepAnimation := none }

/-- `FrameLoop.start`:
`running = true;
if (framerate === 0) { _stepAnimation = animationFrameWrapper(stepCallback); }
else { if (interpolation) { _interpolationAnimation =
         animationFrameWrapper(interpolationCallback); }
       _stepInterval = setInterval(stepCallback, 1000 / framerate); }`. -/
def start (s : FLState) : FLState :=
  let s1 : FLState := { s with running := true }
  if s1.framerate = 0 then
    { s1.addSource .step .displaySync s1.stepCallback with stepAnimation := some s1.nextId }
  else
    let s2 : FLState :=
      if s1.interpolation then
        { s1.addSource .interp .displaySync s1.interpolationCallback with
          interpolationAnimation := some s1.nextId }
      else s1
    { s2.addSource .step (.periodicTimer (1000 / s2.framerate)) s2.stepCallback with
      stepInterval := some s2.nextId }

/-- `FrameLoop._restart`: `if (running) { stop(); start(); }`. -/
def restart (s : FLState) : FLState :=
  if s.running then s.stop.start else s

/-- `FrameLoop.setFramerate`:
`framerate = fps;
runtime.currentStepTime = (fps === 0) ? 1000 / 60 : 1000 / framerate;
_restart();`. -/
def setFramerate (s : FLState) (fps : ℚ) : FLState :=
  ({ s with
      framerate := fps
      currentStepTime := if fps = 0 then 1000 / 60 else 1000 / fps } : FLState).restart

/-- `FrameLoop.setInterpolation`: `interpolation = b; _restart();`. -/
def setInterpolation (s : FLState) (c : Bool) : FLState :=
  ({ s with interpolation := c } : FLState).restart

end FLState

/-- The `FrameLoop` constructor, with the two bound callback references
modelled as the opaque tags `a` (step) and `b` (interpolated render):
`running = false; setFramerate(60); setInterpolation(false);
stepCallback = runtime._step.bind(runtime);
interpolationCallback = runtime._renderInterpolatedPositions.bind(runtime);
_stepInterval = null; _interpolationAnimation = null; _stepAnimation = null;`.
The two setter calls happen with `running = false`, so `_restart` does
nothing and no subscription is created. -/
def FrameLoop.new (a b : Nat) : FLState :=
  (({ running := false
      framerate := 0
      interpolation := false
      currentStepTime := 0
      stepCallback := a
      interpolationCallback := b
      stepInterval := none
      interpolationAnimation := none
      stepAnimation := none
      events := []
      nextId := 0 } : FLState).setFramerate 60).setInterpolation false

/-- The four public mutating operations of the scheduler. -/
inductive Op where
  | setFramerate (fps : ℚ)
  | setInterpolation (c : Bool)
  | start
  | stop

/-- Apply one operation. -/
def applyOp (s : FLState) (op : Op) : FLState :=
  match op with
  | .setFramerate fps => s.setFramerate fps
  | .setInterpolation c => s.setInterpolation c
  | .start => s.start
  | .stop => s.stop

/-- Apply a sequence of operations, left to right. -/
def runOps (s : FLState) (ops : List Op) : FLState :=
  ops.foldl applyOp s

/-- States reachable from a freshly constructed `FrameLoop` with callback
tags `a`, `b`.  `setFramerate` respects its documented precondition
`rate ≥ 0`, and `start` is only invoked from the stopped state (the spec
flags calling `start` while running as undefined behaviour). -/
inductive Reachable (a b : Nat) : FLState → Prop where
  | init : Reachable a b (FrameLoop.new a b)
  | setFramerate {s : FLState} {fps : ℚ} :
      Reachable a b s → 0 ≤ fps → Reachable a b (s.setFramerate fps)
  | setInterpolation {s : FLState} {c : Bool} :
      Reachable a b s → Reachable a b (s.setInterpolation c)
  | start {s : FLState} :
      Reachable a b s → s.running = false → Reachable a b s.start
  | stop {s : FLState} :
      Reachable a b s → Reachable a b s.stop

/-- Every `create` event in the log happens at a moment when no source of
its role is live: replacements are created only after the replaced handle
was cancelled. -/
def OrderOK (evs : List Ev) : Prop :=
  ∀ l1 l2 src, evs = l1 ++ Ev.create src :: l2 → liveOf l1 src.role = []

/-!
Model of one `animationFrameWrapper` handle together with its host: `curId`
is the closure variable `id`, `pending` is the request the host currently
holds for this wrapper (`none` once cancelled), `nextId` generates request
ids, and `calls` counts invocations of the wrapped callback.
-/

/-- State of one `animationFrameWrapper` closure and its host requests. -/
structure AFW where
  curId : Nat
  pending : Option Nat
  nextId : Nat
  calls : Nat
deriving DecidableEq

/-- `animationFrameWrapper(callback)` body up to the return:
`id = _requestAnimationFrame(handle)` submits the first request. -/
def afwInit : AFW :=
  { curId := 0, pending := some 0, nextId := 1, calls := 0 }

namespace AFW

/-- The host can deliver a refresh frame to the wrapper: the closure's
current request id is still pending. -/
def canFire (w : AFW) : Prop :=
  w.pending = some w.curId

instance (w : AFW) : Decidable w.canFire := by
  unfold canFire; infer_instance

/-- `cancel = () => _cancelAnimationFrame(id)`: remove the request named by
the closure's current `id` (a no-op on an id that is no longer pending). -/
def cancel (w : AFW) : AFW :=
  { w with pending := if w.pending = some w.curId then none else w.pending }

/-- One display refresh delivered to the wrapper: the host dequeues the
request and runs `handle`, which first resubmits
(`id = _requestAnimationFrame(handle)`) and then runs `callback()`;
`cancelInside` records whether the callback body invokes the wrapper's
`cancel` during this very invocation. -/
def fire (w : AFW) (cancelInside : Bool) : AFW :=
  let w1 : AFW :=
    { w with
      curId := w.nextId
      pending := some w.nextId
      nextId := w.nextId + 1
      calls := w.calls + 1 }
  if cancelInside then w1.cancel else w1

end AFW

/-- The transitions available on a wrapper handle after creation: the host
delivers a refresh frame (possible only while the request is pending), or
some code invokes the returned `cancel`. -/
inductive AFWStep : AFW → AFW → Prop where
  | fire (w : AFW) (cancelInside : Bool) : w.canFire → AFWStep w (w.fire cancelInside)
  | cancel (w : AFW) : AFWStep w w.cancel

/-- A reconfiguration call while the loop keeps running: `setFramerate`
(with its documented precondition `rate ≥ 0`) or `setInterpolation`. -/
def ConfigOp : Op → Prop :=
  fun op =>
    match op with
    | .setFramerate fps => 0 ≤ fps
    | .setInterpolation _ => True
    | .start => False
    | .stop => False

/-- The mode table of `start`: which sources one call to `start` creates and
leaves live, for each of the three configurations. -/
def ModeTableOK (s : FLState) : Prop :=
  (s.framerate = 0 →
      s.start.events = s.events ++ [Ev.create ⟨s.nextId, .step, .displaySync, s.stepCallback⟩] ∧
      s.start.live .step = [⟨s.nextId, .step, .displaySync, s.stepCallback⟩] ∧
      s.start.live .interp = []) ∧
  (s.framerate ≠ 0 → s.interpolation = false →
      s.start.events = s.events ++
        [Ev.create ⟨s.nextId, .step, .periodicTimer (1000 / s.framerate), s.stepCallback⟩] ∧
      s.start.live .step =
        [⟨s.nextId, .step, .periodicTimer (1000 / s.framerate), s.stepCallback⟩] ∧
      s.start.live .interp = []) ∧
  (s.framerate ≠ 0 → s.interpolation = true →
      s.start.events = s.events ++
        [Ev.create ⟨s.nextId, .interp, .displaySync, s.interpolationCallback⟩,
         Ev.create ⟨s.nextId + 1, .step, .periodicTimer (1000 / s.framerate), s.stepCallback⟩] ∧
      s.start.live .step =
        [⟨s.nextId + 1, .step, .periodicTimer (1000 / s.framerate), s.stepCallback⟩] ∧
      s.start.live .interp = [⟨s.nextId, .interp, .displaySync, s.interpolationCallback⟩])

/-- What `setFramerate` does: store the rate, recompute the engine tick
interval, and restart the scheduler exactly when it was running. -/
def SetFramerateOK (s : FLState) (fps : ℚ) : Prop :=
  (s.setFramerate fps).framerate = fps ∧
  (s.setFramerate fps).currentStepTime = (if fps = 0 then 1000 / 60 else 1000 / fps) ∧
  (s.running = true →
    s.setFramerate fps =
      (({ s with framerate := fps, currentStepTime := (if fps = 0 then 1000 / 60 else 1000 / fps) } : FLState)).stop.start) ∧
  (s.running = false →
    s.setFramerate fps =
      ({ s with framerate := fps, currentStepTime := (if fps = 0 then 1000 / 60 else 1000 / fps) } : FLState) ∧
    (s.setFramerate fps).events = s.events)

/-- The concrete scenario of C3: `setFramerate 45` on a fresh instance
creates no source, sets the tick interval to `1000/45` ms, and the first
`start` afterwards subscribes one periodic timer at that rate. -/
def Rate45ScenarioOK (a b : Nat) : Prop :=
  ((FrameLoop.new a b).setFramerate 45).events = [] ∧
  ((FrameLoop.new a b).setFramerate 45).currentStepTime = 1000 / 45 ∧
  ((FrameLoop.new a b).setFramerate 45).start.live .step =
    [⟨0, .step, .periodicTimer (1000 / 45), a⟩] ∧
  ((FrameLoop.new a b).setFramerate 45).start.live .interp = []

/-- What one call to `stop` leaves behind: not running, no live source, the
two animation handle fields cleared, the interval id (when present)
cancelled, and a second `stop` being the identity. -/
def StopClearsOK (s : FLState) : Prop :=
  s.stop.running = false ∧
  s.stop.stepAnimation = none ∧
  s.stop.interpolationAnimation = none ∧
  s.stop.live .step = [] ∧
  s.stop.live .interp = [] ∧
  (∀ i, s.stop.stepInterval = some i → i ∈ cancelledOf s.stop.events) ∧
  s.stop.stop = s.stop

/-- The interpolation-gating facts: a live interpolation source exists
exactly in running states with a positive rate and the flag on; `start`
with rate `0` creates only the display-sync step source; the flag is always
stored; and raising the rate while running with the flag on resumes
interpolation. -/
def InterpGateOK (s : FLState) : Prop :=
  (s.live .interp ≠ [] ↔ s.running = true ∧ 0 < s.framerate ∧ s.interpolation = true) ∧
  (s.framerate = 0 →
    s.start.events = s.events ++ [Ev.create ⟨s.nextId, .step, .displaySync, s.stepCallback⟩]) ∧
  (∀ c, (s.setInterpolation c).interpolation = c) ∧
  (∀ fps, 0 < fps → s.running = true → s.interpolation = true →
    (s.setFramerate fps).live .interp ≠ [])

/-- The leak produced by calling `start` on a state whose step source `src`
is still live: nothing is cancelled, a second step subscription appears,
and no handle field points at `src` any more. -/
def StartLeakOK (s : FLState) (src : Source) : Prop :=
  src ∈ s.start.live .step ∧
  cancelledOf s.start.events = cancelledOf s.events ∧
  (∃ src2, src2 ∈ s.start.live .step ∧ src2.id ≠ src.id ∧ src2.callback = s.stepCallback) ∧
  s.start.stepInterval ≠ some src.id ∧
  s.start.stepAnimation ≠ some src.id

/-- Callback identity: the two callback references are the ones bound at
construction, every source ever subscribed uses them according to its role,
and reconfiguration does not change them. -/
def CallbackIdOK (a b : Nat) (s : FLState) : Prop :=
  s.stepCallback = a ∧ s.interpolationCallback = b ∧
  (∀ src ∈ createdOf s.events, src.callback = (if src.role = .step then a else b)) ∧
  (∀ fps, (s.setFramerate fps).stepCallback = a ∧
    (s.setFramerate fps).interpolationCallback = b) ∧
  (∀ c, (s.setInterpolation c).stepCallback = a ∧
    (s.setInterpolation c).interpolationCallback = b)

/-! ### Basic lemmas about the event log -/

@[simp] lemma createdOf_nil : createdOf [] = [] := rfl

@[simp] lemma cancelledOf_nil : cancelledOf [] = [] := rfl

@[simp] lemma createdOf_append (l1 l2 : List Ev) :
    createdOf (l1 ++ l2) = createdOf l1 ++ createdOf l2 :=
  List.filterMap_append l1 l2 _

@[simp] lemma cancelledOf_append (l1 l2 : List Ev) :
    cancelledOf (l1 ++ l2) = cancelledOf l1 ++ cancelledOf l2 :=
  List.filterMap_append l1 l2 _

@[simp] lemma createdOf_cons_create (src : Source) (t : List Ev) :
    createdOf (Ev.create src :: t) = src :: createdOf t := rfl

@[simp] lemma createdOf_cons_cancel (i : Nat) (t : List Ev) :
    createdOf (Ev.cancel i :: t) = createdOf t := rfl

@[simp] lemma cancelledOf_cons_create (src : Source) (t : List Ev) :
    cancelledOf (Ev.create src :: t) = cancelledOf t := rfl

@[simp] lemma cancelledOf_cons_cancel (i : Nat) (t : List Ev) :
    cancelledOf (Ev.cancel i :: t) = i :: cancelledOf t := rfl

@[simp] lemma createdOf_create (src : Source) : createdOf [Ev.create src] = [src] := rfl

@[simp] lemma createdOf_cancel (i : Nat) : createdOf [Ev.cancel i] = [] := rfl

@[simp] lemma cancelledOf_create (src : Source) : cancelledOf [Ev.create src] = [] := rfl

@[simp] lemma cancelledOf_cancel (i : Nat) : cancelledOf [Ev.cancel i] = [i] := rfl

lemma mem_liveOf {evs : List Ev} {r : Role} {src : Source} :
    src ∈ liveOf evs r ↔
      src ∈ createdOf evs ∧ src.role = r ∧ src.id ∉ cancelledOf evs := by
  simp [liveOf, List.mem_filter]

@[simp] lemma liveOf_nil (r : Role) : liveOf [] r = [] := rfl

lemma liveOf_append_create (evs : List Ev) (src : Source) (r : Role) :
    liveOf (evs ++ [Ev.create src]) r =
      liveOf evs r ++
        if src.role = r ∧ src.id ∉ cancelledOf evs then [src] else [] := by
  by_cases hc : src.role = r ∧ src.id ∉ cancelledOf evs <;>
    simp [liveOf, List.filter_append, hc]

lemma mem_liveOf_append_cancel {evs : List Ev} {i : Nat} {r : Role} {src : Source} :
    src ∈ liveOf (evs ++ [Ev.cancel i]) r ↔ src ∈ liveOf evs r ∧ src.id ≠ i := by
  simp [mem_liveOf]
  tauto

/-! ### Lemmas about `OrderOK` -/

lemma snoc_eq_append_cons {α : Type} {evs l1 l2 : List α} {e c : α}
    (h : evs ++ [e] = l1 ++ c :: l2) :
    (l1 = evs ∧ c = e ∧ l2 = []) ∨ ∃ l3, l2 = l3 ++ [e] ∧ evs = l1 ++ c :: l3 := by
  rcases List.eq_nil_or_concat l2 with rfl | ⟨l3, e2, rfl⟩
  · left
    have h2 := List.append_inj' h rfl
    refine ⟨h2.1.symm, ?_, rfl⟩
    have := h2.2
    simp at this
    exact this.symm
  · right
    have h2 : evs ++ [e] = (l1 ++ c :: l3) ++ [e2] := by
      rw [h]; simp
    have h3 := List.append_inj' h2 rfl
    have he : e = e2 := by
      have := h3.2; simp at this; exact this
    exact ⟨l3, by rw [he]; simp, h3.1⟩

lemma orderOK_nil : OrderOK [] := by
  intro l1 l2 src h
  exact absurd h (by simp)

lemma OrderOK.append_cancel {evs : List Ev} (h : OrderOK evs) (i : Nat) :
    OrderOK (evs ++ [Ev.cancel i]) := by
  intro l1 l2 src hd
  rcases snoc_eq_append_cons hd with ⟨rfl, hc, rfl⟩ | ⟨l3, rfl, hev⟩
  · exact absurd hc (by simp)
  · exact h l1 l3 src hev

lemma OrderOK.append_create {evs : List Ev} (h : OrderOK evs) (src : Source)
    (hl : liveOf evs src.role = []) : OrderOK (evs ++ [Ev.create src]) := by
  intro l1 l2 src2 hd
  rcases snoc_eq_append_cons hd with ⟨rfl, hc, rfl⟩ | ⟨l3, rfl, hev⟩
  · have h4 : src2 = src := by
      injection hc
    rw [h4]
    exact hl
  · exact h l1 l3 src2 hev

lemma OrderOK.extend {evs : List Ev} (h : OrderOK evs) (tail : List Ev)
    (ht : createdOf tail = []) : OrderOK (evs ++ tail) := by
  induction tail generalizing evs with
  | nil => simpa using h
  | cons e t ih =>
    obtain ⟨i, rfl⟩ : ∃ i, e = Ev.cancel i := by
      cases e with
      | create src => simp [createdOf] at ht
      | cancel i => exact ⟨i, rfl⟩
    have ht2 : createdOf t = [] := by
      simpa [createdOf] using ht
    have h2 : OrderOK (evs ++ [Ev.cancel i]) := h.append_cancel i
    have h3 := ih h2 ht2
    simpa using h3

lemma OrderOK.take {l1 l2 : List Ev} (h : OrderOK (l1 ++ l2)) : OrderOK l1 := by
  intro m1 m2 src hd
  refine h m1 (m2 ++ l2) src ?_
  rw [hd]
  simp

lemma OrderOK.liveOf_length_le_one {evs : List Ev} (h : OrderOK evs) (r : Role) :
    (liveOf evs r).length ≤ 1 := by
  induction evs using List.reverseRecOn with
  | nil => simp
  | append_singleton l e ih =>
    have hl : OrderOK l := h.take
    cases e with
    | cancel i =>
      have hsub : liveOf (l ++ [Ev.cancel i]) r ⊆ liveOf l r := by
        intro x hx
        exact (mem_liveOf_append_cancel.1 hx).1
      calc (liveOf (l ++ [Ev.cancel i]) r).length
          ≤ (liveOf l r).length := by
            refine List.Sublist.length_le ?_
            simp only [liveOf, cancelledOf_append, createdOf_append,
              createdOf_cancel, cancelledOf_cancel, List.append_nil]
            refine List.monotone_filter_right _ ?_
            intro a ha
            simp only [decide_eq_true_eq] at ha ⊢
            exact ⟨ha.1, fun hm => ha.2 (by simp [hm])⟩
        _ ≤ 1 := ih hl
    | create src =>
      have hempty : liveOf l src.role = [] := h l [] src rfl
      rw [liveOf_append_create]
      by_cases hc : src.role = r ∧ src.id ∉ cancelledOf l
      · have : liveOf l r = [] := by
          rw [← hc.1]; exact hempty
        simp [hc, this]
      · simpa [hc] using ih hl

/-! ### Effect of the helper operations on each state field -/

namespace FLState

@[simp] lemma cancelId_running (s : FLState) (i : Nat) :
    (s.cancelId i).running = s.running := by
  unfold cancelId; split <;> rfl

@[simp] lemma cancelId_framerate (s : FLState) (i : Nat) :
    (s.cancelId i).framerate = s.framerate := by
  unfold cancelId; split <;> rfl

@[simp] lemma cancelId_interpolation (s : FLState) (i : Nat) :
    (s.cancelId i).interpolation = s.interpolation := by
  unfold cancelId; split <;> rfl

@[simp] lemma cancelId_currentStepTime (s : FLState) (i : Nat) :
    (s.cancelId i).currentStepTime = s.currentStepTime := by
  unfold cancelId; split <;> rfl

@[simp] lemma cancelId_stepCallback (s : FLState) (i : Nat) :
    (s.cancelId i).stepCallback = s.stepCallback := by
  unfold cancelId; split <;> rfl

@[simp] lemma cancelId_interpolationCallback (s : FLState) (i : Nat) :
    (s.cancelId i).interpolationCallback = s.interpolationCallback := by
  unfold cancelId; split <;> rfl

@[simp] lemma cancelId_stepInterval (s : FLState) (i : Nat) :
    (s.cancelId i).stepInterval = s.stepInterval := by
  unfold cancelId; split <;> rfl

@[simp] lemma cancelId_interpolationAnimation (s : FLState) (i : Nat) :
    (s.cancelId i).interpolationAnimation = s.interpolationAnimation := by
  unfold cancelId; split <;> rfl

@[simp] lemma cancelId_stepAnimation (s : FLState) (i : Nat) :
    (s.cancelId i).stepAnimation = s.stepAnimation := by
  unfold cancelId; split <;> rfl

@[simp] lemma cancelId_nextId (s : FLState) (i : Nat) :
    (s.cancelId i).nextId = s.nextId := by
  unfold cancelId; split <;> rfl

@[simp] lemma cancelOpt_running (s : FLState) (o : Option Nat) :
    (s.cancelOpt o).running = s.running := by
  cases o <;> simp [cancelOpt]

@[simp] lemma cancelOpt_framerate (s : FLState) (o : Option Nat) :
    (s.cancelOpt o).framerate = s.framerate := by
  cases o <;> simp [cancelOpt]

@[simp] lemma cancelOpt_interpolation (s : FLState) (o : Option Nat) :
    (s.cancelOpt o).interpolation = s.interpolation := by
  cases o <;> simp [cancelOpt]

@[simp] lemma cancelOpt_currentStepTime (s : FLState) (o : Option Nat) :
    (s.cancelOpt o).currentStepTime = s.currentStepTime := by
  cases o <;> simp [cancelOpt]

@[simp] lemma cancelOpt_stepCallback (s : FLState) (o : Option Nat) :
    (s.cancelOpt o).stepCallback = s.stepCallback := by
  cases o <;> simp [cancelOpt]

@[simp] lemma cancelOpt_interpolationCallback (s : FLState) (o : Option Nat) :
    (s.cancelOpt o).interpolationCallback = s.interpolationCallback := by
  cases o <;> simp [cancelOpt]

@[simp] lemma cancelOpt_stepInterval (s : FLState) (o : Option Nat) :
    (s.cancelOpt o).stepInterval = s.stepInterval := by
  cases o <;> simp [cancelOpt]

@[simp] lemma cancelOpt_interpolationAnimation (s : FLState) (o : Option Nat) :
    (s.cancelOpt o).interpolationAnimation = s.interpolationAnimation := by
  cases o <;> simp [cancelOpt]

@[simp] lemma cancelOpt_stepAnimation (s : FLState) (o : Option Nat) :
    (s.cancelOpt o).stepAnimation = s.stepAnimation := by
  cases o <;> simp [cancelOpt]

@[simp] lemma cancelOpt_nextId (s : FLState) (o : Option Nat) :
    (s.cancelOpt o).nextId = s.nextId := by
  cases o <;> simp [cancelOpt]

lemma mem_cancelledOf_cancelId (s : FLState) (i j : Nat) :
    j ∈ cancelledOf (s.cancelId i).events ↔ j ∈ cancelledOf s.events ∨ j = i := by
  unfold cancelId
  split
  · constructor
    · exact fun hj => Or.inl hj
    · rintro (hj | rfl)
      · exact hj
      · assumption
  · simp

lemma createdOf_cancelId (s : FLState) (i : Nat) :
    createdOf (s.cancelId i).events = createdOf s.events := by
  unfold cancelId; split <;> simp

lemma cancelId_events_extend (s : FLState) (i : Nat) :
    ∃ tail, (s.cancelId i).events = s.events ++ tail ∧ createdOf tail = [] := by
  unfold cancelId
  split
  · exact ⟨[], by simp⟩
  · exact ⟨[Ev.cancel i], rfl, rfl⟩

lemma mem_cancelledOf_cancelOpt (s : FLState) (o : Option Nat) (j : Nat) :
    j ∈ cancelledOf (s.cancelOpt o).events ↔
      j ∈ cancelledOf s.events ∨ o = some j := by
  cases o with
  | none => simp [cancelOpt]
  | some i =>
    rw [cancelOpt, mem_cancelledOf_cancelId]
    simp [eq_comm]

lemma createdOf_cancelOpt (s : FLState) (o : Option Nat) :
    createdOf (s.cancelOpt o).events = createdOf s.events := by
  cases o with
  | none => rfl
  | some i => exact createdOf_cancelId s i

lemma cancelOpt_events_extend (s : FLState) (o : Option Nat) :
    ∃ tail, (s.cancelOpt o).events = s.events ++ tail ∧ createdOf tail = [] := by
  cases o with
  | none => exact ⟨[], by simp [cancelOpt]⟩
  | some i => exact cancelId_events_extend s i

@[simp] lemma addSource_running (s : FLState) (r : Role) (k : SourceKind) (cb : Nat) :
    (s.addSource r k cb).running = s.running := rfl

@[simp] lemma addSource_framerate (s : FLState) (r : Role) (k : SourceKind) (cb : Nat) :
    (s.addSource r k cb).framerate = s.framerate := rfl

@[simp] lemma addSource_interpolation (s : FLState) (r : Role) (k : SourceKind) (cb : Nat) :
    (s.addSource r k cb).interpolation = s.interpolation := rfl

@[simp] lemma addSource_currentStepTime (s : FLState) (r : Role) (k : SourceKind) (cb : Nat) :
    (s.addSource r k cb).currentStepTime = s.currentStepTime := rfl

@[simp] lemma addSource_stepCallback (s : FLState) (r : Role) (k : SourceKind) (cb : Nat) :
    (s.addSource r k cb).stepCallback = s.stepCallback := rfl

@[simp] lemma addSource_interpolationCallback (s : FLState) (r : Role) (k : SourceKind)
    (cb : Nat) :
    (s.addSource r k cb).interpolationCallback = s.interpolationCallback := rfl

@[simp] lemma addSource_stepInterval (s : FLState) (r : Role) (k : SourceKind) (cb : Nat) :
    (s.addSource r k cb).stepInterval = s.stepInterval := rfl

@[simp] lemma addSource_interpolationAnimation (s : FLState) (r : Role) (k : SourceKind)
    (cb : Nat) :
    (s.addSource r k cb).interpolationAnimation = s.interpolationAnimation := rfl

@[simp] lemma addSource_stepAnimation (s : FLState) (r : Role) (k : SourceKind) (cb : Nat) :
    (s.addSource r k cb).stepAnimation = s.stepAnimation := rfl

@[simp] lemma addSource_nextId (s : FLState) (r : Role) (k : SourceKind) (cb : Nat) :
    (s.addSource r k cb).nextId = s.nextId + 1 := rfl

@[simp] lemma addSource_events (s : FLState) (r : Role) (k : SourceKind) (cb : Nat) :
    (s.addSource r k cb).events = s.events ++ [Ev.create ⟨s.nextId, r, k, cb⟩] := rfl

end FLState

/-! ### Characterisation of `stop`, `start`, `restart` and the setters -/

namespace FLState

@[simp] lemma stop_running (s : FLState) : s.stop.running = false := by
  simp [stop]

@[simp] lemma stop_framerate (s : FLState) : s.stop.framerate = s.framerate := by
  simp [stop]

@[simp] lemma stop_interpolation (s : FLState) : s.stop.interpolation = s.interpolation := by
  simp [stop]

@[simp] lemma stop_currentStepTime (s : FLState) :
    s.stop.currentStepTime = s.currentStepTime := by
  simp [stop]

@[simp] lemma stop_stepCallback (s : FLState) : s.stop.stepCallback = s.stepCallback := by
  simp [stop]

@[simp] lemma stop_interpolationCallback (s : FLState) :
    s.stop.interpolationCallback = s.interpolationCallback := by
  simp [stop]

@[simp] lemma stop_stepInterval (s : FLState) : s.stop.stepInterval = s.stepInterval := by
  simp [stop]

@[simp] lemma stop_interpolationAnimation (s : FLState) :
    s.stop.interpolationAnimation = none := by
  simp [stop]

@[simp] lemma stop_stepAnimation (s : FLState) : s.stop.stepAnimation = none := by
  simp [stop]

@[simp] lemma stop_nextId (s : FLState) : s.stop.nextId = s.nextId := by
  simp [stop]

lemma mem_cancelledOf_stop (s : FLState) (j : Nat) :
    j ∈ cancelledOf s.stop.events ↔
      j ∈ cancelledOf s.events ∨ s.stepInterval = some j ∨
        s.interpolationAnimation = some j ∨ s.stepAnimation = some j := by
  simp only [stop, mem_cancelledOf_cancelOpt, cancelOpt_stepInterval,
    cancelOpt_interpolationAnimation, cancelOpt_stepAnimation,
    cancelId_stepInterval, cancelId_interpolationAnimation, cancelId_stepAnimation]
  tauto

lemma createdOf_stop (s : FLState) : createdOf s.stop.events = createdOf s.events := by
  simp [stop, createdOf_cancelOpt]

lemma stop_events_extend (s : FLState) :
    ∃ tail, s.stop.events = s.events ++ tail ∧ createdOf tail = [] := by
  obtain ⟨t1, h1, hc1⟩ :=
    cancelOpt_events_extend ({ s with running := false } : FLState) s.stepInterval
  set s2 := ({ s with running := false } : FLState).cancelOpt s.stepInterval with hs2
  obtain ⟨t2, h2, hc2⟩ := cancelOpt_events_extend s2 s2.interpolationAnimation
  set s3 := s2.cancelOpt s2.interpolationAnimation with hs3
  obtain ⟨t3, h3, hc3⟩ := cancelOpt_events_extend s3 s3.stepAnimation
  refine ⟨t1 ++ t2 ++ t3, ?_, by simp [hc1, hc2, hc3]⟩
  show s.stop.events = s.events ++ (t1 ++ t2 ++ t3)
  have : s.stop.events = ((s3.cancelOpt s3.stepAnimation) : FLState).events := by
    simp only [stop]
  rw [this, h3, h2, h1]
  simp

lemma start_zero {s : FLState} (h : s.framerate = 0) :
    s.start =
      { s with
        running := true
        stepAnimation := some s.nextId
        events := s.events ++ [Ev.create ⟨s.nextId, .step, .displaySync, s.stepCallback⟩]
        nextId := s.nextId + 1 } := by
  simp [start, addSource, h]

lemma start_pos_nointerp {s : FLState} (h : ¬ s.framerate = 0)
    (h2 : s.interpolation = false) :
    s.start =
      { s with
        running := true
        stepInterval := some s.nextId
        events := s.events ++
          [Ev.create ⟨s.nextId, .step, .periodicTimer (1000 / s.framerate), s.stepCallback⟩]
        nextId := s.nextId + 1 } := by
  simp [start, addSource, h, h2]

lemma start_pos_interp {s : FLState} (h : ¬ s.framerate = 0)
    (h2 : s.interpolation = true) :
    s.start =
      { s with
        running := true
        interpolationAnimation := some s.nextId
        stepInterval := some (s.nextId + 1)
        events := s.events ++
          [Ev.create ⟨s.nextId, .interp, .displaySync, s.interpolationCallback⟩,
           Ev.create
             ⟨s.nextId + 1, .step, .periodicTimer (1000 / s.framerate), s.stepCallback⟩]
        nextId := s.nextId + 2 } := by
  simp [start, addSource, h, h2]

@[simp] lemma start_running (s : FLState) : s.start.running = true := by
  by_cases h : s.framerate = 0
  · rw [start_zero h]
  · by_cases h2 : s.interpolation
    · rw [start_pos_interp h h2]
    · rw [start_pos_nointerp h (by simpa using h2)]

@[simp] lemma start_framerate (s : FLState) : s.start.framerate = s.framerate := by
  by_cases h : s.framerate = 0
  · rw [start_zero h]
  · by_cases h2 : s.interpolation
    · rw [start_pos_interp h h2]
    · rw [start_pos_nointerp h (by simpa using h2)]

@[simp] lemma start_interpolation (s : FLState) :
    s.start.interpolation = s.interpolation := by
  by_cases h : s.framerate = 0
  · rw [start_zero h]
  · by_cases h2 : s.interpolation
    · rw [start_pos_interp h h2]
    · rw [start_pos_nointerp h (by simpa using h2)]

@[simp] lemma start_currentStepTime (s : FLState) :
    s.start.currentStepTime = s.currentStepTime := by
  by_cases h : s.framerate = 0
  · rw [start_zero h]
  · by_cases h2 : s.interpolation
    · rw [start_pos_interp h h2]
    · rw [start_pos_nointerp h (by simpa using h2)]

@[simp] lemma start_stepCallback (s : FLState) :
    s.start.stepCallback = s.stepCallback := by
  by_cases h : s.framerate = 0
  · rw [start_zero h]
  · by_cases h2 : s.interpolation
    · rw [start_pos_interp h h2]
    · rw [start_pos_nointerp h (by simpa using h2)]

@[simp] lemma start_interpolationCallback (s : FLState) :
    s.start.interpolationCallback = s.interpolationCallback := by
  by_cases h : s.framerate = 0
  · rw [start_zero h]
  · by_cases h2 : s.interpolation
    · rw [start_pos_interp h h2]
    · rw [start_pos_nointerp h (by simpa using h2)]

lemma cancelledOf_start (s : FLState) :
    cancelledOf s.start.events = cancelledOf s.events := by
  by_cases h : s.framerate = 0
  · rw [start_zero h]; simp
  · by_cases h2 : s.interpolation
    · rw [start_pos_interp h h2]; simp [cancelledOf]
    · rw [start_pos_nointerp h (by simpa using h2)]; simp

end FLState

/-- Explicit form of a freshly constructed instance. -/
lemma frameLoop_new_eq (a b : Nat) :
    FrameLoop.new a b =
      { running := false
        framerate := 60
        interpolation := false
        currentStepTime := 1000 / 60
        stepCallback := a
        interpolationCallback := b
        stepInterval := none
        interpolationAnimation := none
        stepAnimation := none
        events := []
        nextId := 0 } := by
  have h60 : ¬ ((60 : ℚ) = 0) := by norm_num
  simp [FrameLoop.new, FLState.setFramerate, FLState.setInterpolation, FLState.restart, h60]

/-! ### The reachability invariant -/

@[simp] lemma FLState.live_eq (s : FLState) (r : Role) : s.live r = liveOf s.events r := rfl

/-- Invariant of every state reachable through the public operations:
id bookkeeping, the linkage between live sources and the three handle
fields, the meaning of a live handle field for the configuration, and the
cancellation-before-replacement discipline of the event log. -/
structure FLInv (s : FLState) : Prop where
  created_lt : ∀ src ∈ createdOf s.events, src.id < s.nextId
  cancelled_lt : ∀ i ∈ cancelledOf s.events, i < s.nextId
  interval_lt : ∀ i, s.stepInterval = some i → i < s.nextId
  anim_lt : ∀ i, s.stepAnimation = some i → i < s.nextId
  interpAnim_lt : ∀ i, s.interpolationAnimation = some i → i < s.nextId
  step_link : ∀ src ∈ s.live .step,
      s.stepInterval = some src.id ∨ s.stepAnimation = some src.id
  interp_link : ∀ src ∈ s.live .interp, s.interpolationAnimation = some src.id
  interval_mode : ∀ i, s.stepInterval = some i → i ∉ cancelledOf s.events →
      s.running = true ∧ s.framerate ≠ 0
  anim_mode : ∀ i, s.stepAnimation = some i → i ∉ cancelledOf s.events →
      s.running = true ∧ s.framerate = 0
  interp_mode : ∀ i, s.interpolationAnimation = some i → i ∉ cancelledOf s.events →
      s.running = true ∧ s.framerate ≠ 0 ∧ s.interpolation = true
  interp_exist : s.running = true → s.framerate ≠ 0 → s.interpolation = true →
      s.live .interp ≠ []
  rate_nonneg : 0 ≤ s.framerate
  order_ok : OrderOK s.events

/-- The configuration-independent part of the invariant: exactly what is
needed to know that `stop` cancels every live source.  Unlike `FLInv` it
also holds at the intermediate state of a setter in which the new
configuration has been stored but `_restart` has not yet run. -/
structure FLCore (s : FLState) : Prop where
  created_lt : ∀ src ∈ createdOf s.events, src.id < s.nextId
  cancelled_lt : ∀ i ∈ cancelledOf s.events, i < s.nextId
  interval_lt : ∀ i, s.stepInterval = some i → i < s.nextId
  anim_lt : ∀ i, s.stepAnimation = some i → i < s.nextId
  interpAnim_lt : ∀ i, s.interpolationAnimation = some i → i < s.nextId
  step_link : ∀ src ∈ s.live .step,
      s.stepInterval = some src.id ∨ s.stepAnimation = some src.id
  interp_link : ∀ src ∈ s.live .interp, s.interpolationAnimation = some src.id
  rate_nonneg : 0 ≤ s.framerate
  order_ok : OrderOK s.events

lemma FLInv.core {s : FLState} (hInv : FLInv s) : FLCore s :=
  ⟨hInv.created_lt, hInv.cancelled_lt, hInv.interval_lt, hInv.anim_lt,
   hInv.interpAnim_lt, hInv.step_link, hInv.interp_link, hInv.rate_nonneg,
   hInv.order_ok⟩

lemma FLInv.fresh_not_cancelled {s : FLState} (hInv : FLInv s) :
    s.nextId ∉ cancelledOf s.events :=
  fun h => absurd (hInv.cancelled_lt _ h) (lt_irrefl _)

lemma FLInv.fresh_succ_not_cancelled {s : FLState} (hInv : FLInv s) :
    s.nextId + 1 ∉ cancelledOf s.events :=
  fun h => absurd (hInv.cancelled_lt _ h) (by omega)

lemma FLInv.live_step_stopped {s : FLState} (hInv : FLInv s) (h : s.running = false) :
    s.live .step = [] := by
  rw [List.eq_nil_iff_forall_not_mem]
  intro src hsrc
  have hm := mem_liveOf.1 (by simpa using hsrc)
  rcases hInv.step_link src hsrc with hl | hl
  · have := (hInv.interval_mode src.id hl hm.2.2).1
    rw [h] at this
    exact Bool.false_ne_true this
  · have := (hInv.anim_mode src.id hl hm.2.2).1
    rw [h] at this
    exact Bool.false_ne_true this

lemma FLInv.live_interp_stopped {s : FLState} (hInv : FLInv s) (h : s.running = false) :
    s.live .interp = [] := by
  rw [List.eq_nil_iff_forall_not_mem]
  intro src hsrc
  have hm := mem_liveOf.1 (by simpa using hsrc)
  have hl := hInv.interp_link src hsrc
  have := (hInv.interp_mode src.id hl hm.2.2).1
  rw [h] at this
  exact Bool.false_ne_true this

lemma FLCore.live_stop_empty {s : FLState} (hInv : FLCore s) (r : Role) :
    s.stop.live r = [] := by
  rw [List.eq_nil_iff_forall_not_mem]
  intro src hsrc
  have hm := mem_liveOf.1 (by simpa using hsrc)
  have hcr : src ∈ createdOf s.events := by
    have := hm.1
    rwa [FLState.createdOf_stop] at this
  have hnot := hm.2.2
  have hold : src.id ∉ cancelledOf s.events :=
    fun hc => hnot ((FLState.mem_cancelledOf_stop s src.id).2 (Or.inl hc))
  have hsrc_old : src ∈ s.live r :=
    mem_liveOf.2 ⟨hcr, hm.2.1, hold⟩
  cases r with
  | step =>
    rcases hInv.step_link src hsrc_old with hl | hl
    · exact hnot ((FLState.mem_cancelledOf_stop s src.id).2 (Or.inr (Or.inl hl)))
    · exact hnot ((FLState.mem_cancelledOf_stop s src.id).2 (Or.inr (Or.inr (Or.inr hl))))
  | interp =>
    have hl := hInv.interp_link src hsrc_old
    exact hnot ((FLState.mem_cancelledOf_stop s src.id).2 (Or.inr (Or.inr (Or.inl hl))))

lemma FLCore.stop_inv {s : FLState} (hInv : FLCore s) : FLInv s.stop := by
  refine ⟨?_, ?_, ?_, ?_, ?_, ?_, ?_, ?_, ?_, ?_, ?_, ?_, ?_⟩
  · intro src hsrc
    rw [FLState.createdOf_stop] at hsrc
    simpa using hInv.created_lt src hsrc
  · intro i hi
    rcases (FLState.mem_cancelledOf_stop s i).1 hi with h | h | h | h
    · simpa using hInv.cancelled_lt i h
    · simpa using hInv.interval_lt i h
    · simpa using hInv.interpAnim_lt i h
    · simpa using hInv.anim_lt i h
  · intro i hi
    rw [FLState.stop_stepInterval] at hi
    simpa using hInv.interval_lt i hi
  · intro i hi
    rw [FLState.stop_stepAnimation] at hi
    exact absurd hi (by simp)
  · intro i hi
    rw [FLState.stop_interpolationAnimation] at hi
    exact absurd hi (by simp)
  · intro src hsrc
    rw [hInv.live_stop_empty .step] at hsrc
    exact absurd hsrc (List.not_mem_nil src)
  · intro src hsrc
    rw [hInv.live_stop_empty .interp] at hsrc
    exact absurd hsrc (List.not_mem_nil src)
  · intro i hi hnc
    rw [FLState.stop_stepInterval] at hi
    exact absurd ((FLState.mem_cancelledOf_stop s i).2 (Or.inr (Or.inl hi))) hnc
  · intro i hi
    rw [FLState.stop_stepAnimation] at hi
    exact absurd hi (by simp)
  · intro i hi
    rw [FLState.stop_interpolationAnimation] at hi
    exact absurd hi (by simp)
  · intro hrun
    rw [FLState.stop_running] at hrun
    exact absurd hrun (by simp)
  · simpa using hInv.rate_nonneg
  · obtain ⟨tail, hev, hcr⟩ := FLState.stop_events_extend s
    rw [hev]
    exact hInv.order_ok.extend tail hcr

lemma FLInv.stop {s : FLState} (hInv : FLInv s) : FLInv s.stop :=
  hInv.core.stop_inv

/-! ### What `start` subscribes, from a stopped state -/

lemma FLInv.start_zero_live_step {s : FLState} (hInv : FLInv s) (hrun : s.running = false)
    (hf : s.framerate = 0) :
    s.start.live .step = [⟨s.nextId, .step, .displaySync, s.stepCallback⟩] := by
  rw [FLState.start_zero hf]
  simp only [FLState.live_eq]
  rw [liveOf_append_create]
  have h1 : liveOf s.events .step = [] := hInv.live_step_stopped hrun
  rw [h1]
  simp [hInv.fresh_not_cancelled]

lemma FLInv.start_zero_live_interp {s : FLState} (hInv : FLInv s) (hrun : s.running = false)
    (hf : s.framerate = 0) :
    s.start.live .interp = [] := by
  rw [FLState.start_zero hf]
  simp only [FLState.live_eq]
  rw [liveOf_append_create]
  have h1 : liveOf s.events .interp = [] := hInv.live_interp_stopped hrun
  rw [h1]
  simp

lemma FLInv.start_nointerp_live_step {s : FLState} (hInv : FLInv s)
    (hrun : s.running = false) (hf : ¬ s.framerate = 0) (hi : s.interpolation = false) :
    s.start.live .step =
      [⟨s.nextId, .step, .periodicTimer (1000 / s.framerate), s.stepCallback⟩] := by
  rw [FLState.start_pos_nointerp hf hi]
  simp only [FLState.live_eq]
  rw [liveOf_append_create]
  have h1 : liveOf s.events .step = [] := hInv.live_step_stopped hrun
  rw [h1]
  simp [hInv.fresh_not_cancelled]

lemma FLInv.start_nointerp_live_interp {s : FLState} (hInv : FLInv s)
    (hrun : s.running = false) (hf : ¬ s.framerate = 0) (hi : s.interpolation = false) :
    s.start.live .interp = [] := by
  rw [FLState.start_pos_nointerp hf hi]
  simp only [FLState.live_eq]
  rw [liveOf_append_create]
  have h1 : liveOf s.events .interp = [] := hInv.live_interp_stopped hrun
  rw [h1]
  simp

lemma FLState.start_interp_events {s : FLState} (hf : ¬ s.framerate = 0)
    (hi : s.interpolation = true) :
    s.start.events =
      (s.events ++ [Ev.create ⟨s.nextId, .interp, .displaySync, s.interpolationCallback⟩]) ++
        [Ev.create
          ⟨s.nextId + 1, .step, .periodicTimer (1000 / s.framerate), s.stepCallback⟩] := by
  rw [FLState.start_pos_interp hf hi]
  simp

lemma FLInv.start_interp_live_interp {s : FLState} (hInv : FLInv s)
    (hrun : s.running = false) (hf : ¬ s.framerate = 0) (hi : s.interpolation = true) :
    s.start.live .interp =
      [⟨s.nextId, .interp, .displaySync, s.interpolationCallback⟩] := by
  simp only [FLState.live_eq]
  rw [FLState.start_interp_events hf hi]
  rw [liveOf_append_create, liveOf_append_create]
  have h1 : liveOf s.events .interp = [] := hInv.live_interp_stopped hrun
  rw [h1]
  simp [hInv.fresh_not_cancelled]

lemma FLInv.start_interp_live_step {s : FLState} (hInv : FLInv s)
    (hrun : s.running = false) (hf : ¬ s.framerate = 0) (hi : s.interpolation = true) :
    s.start.live .step =
      [⟨s.nextId + 1, .step, .periodicTimer (1000 / s.framerate), s.stepCallback⟩] := by
  simp only [FLState.live_eq]
  rw [FLState.start_interp_events hf hi]
  rw [liveOf_append_create, liveOf_append_create]
  have h1 : liveOf s.events .step = [] := hInv.live_step_stopped hrun
  rw [h1]
  simp [hInv.fresh_succ_not_cancelled]

lemma FLInv.start {s : FLState} (hInv : FLInv s) (hrun : s.running = false) :
    FLInv s.start := by
  by_cases hf : s.framerate = 0
  · have hlstep := hInv.start_zero_live_step hrun hf
    have hlinterp := hInv.start_zero_live_interp hrun hf
    have ht := FLState.start_zero hf
    refine ⟨?_, ?_, ?_, ?_, ?_, ?_, ?_, ?_, ?_, ?_, ?_, ?_, ?_⟩
    · intro src hsrc
      rw [ht] at hsrc ⊢
      simp at hsrc ⊢
      rcases hsrc with h | h
      · exact Nat.lt_succ_of_lt (hInv.created_lt src h)
      · rw [h]
        exact Nat.lt_succ_self _
    · intro i hi
      rw [ht] at hi ⊢
      simp at hi ⊢
      exact Nat.lt_succ_of_lt (hInv.cancelled_lt i hi)
    · intro i hi
      rw [ht] at hi ⊢
      simp at hi ⊢
      exact Nat.lt_succ_of_lt (hInv.interval_lt i hi)
    · intro i hi
      rw [ht] at hi ⊢
      simp at hi ⊢
      omega
    · intro i hi
      rw [ht] at hi ⊢
      simp at hi ⊢
      exact Nat.lt_succ_of_lt (hInv.interpAnim_lt i hi)
    · intro src hsrc
      rw [hlstep] at hsrc
      simp at hsrc
      right
      rw [ht, hsrc]
    · intro src hsrc
      rw [hlinterp] at hsrc
      exact absurd hsrc (List.not_mem_nil src)
    · intro i hi hnc
      rw [ht] at hi hnc
      simp at hi hnc
      have := (hInv.interval_mode i hi hnc).1
      rw [hrun] at this
      exact absurd this (by simp)
    · intro i hi _
      rw [ht] at hi ⊢
      simp at hi ⊢
      exact hf
    · intro i hi hnc
      rw [ht] at hi hnc
      simp at hi hnc
      have := (hInv.interp_mode i hi hnc).1
      rw [hrun] at this
      exact absurd this (by simp)
    · intro _ hne _
      rw [ht] at hne
      simp [hf] at hne
    · rw [ht]
      simpa using hInv.rate_nonneg
    · rw [ht]
      simp only
      refine hInv.order_ok.append_create _ ?_
      exact hInv.live_step_stopped hrun
  · by_cases hi : s.interpolation
    · have hlstep := hInv.start_interp_live_step hrun hf hi
      have hlinterp := hInv.start_interp_live_interp hrun hf hi
      have ht := FLState.start_pos_interp hf hi
      refine ⟨?_, ?_, ?_, ?_, ?_, ?_, ?_, ?_, ?_, ?_, ?_, ?_, ?_⟩
      · intro src hsrc
        rw [ht] at hsrc ⊢
        simp at hsrc ⊢
        rcases hsrc with h | h | h
        · have := hInv.created_lt src h
          omega
        · rw [h]
          exact show s.nextId < s.nextId + 2 by omega
        · rw [h]
          exact show s.nextId + 1 < s.nextId + 2 by omega
      · intro i hi2
        rw [ht] at hi2 ⊢
        simp at hi2 ⊢
        have := hInv.cancelled_lt i hi2
        omega
      · intro i hi2
        rw [ht] at hi2 ⊢
        simp at hi2 ⊢
        omega
      · intro i hi2
        rw [ht] at hi2 ⊢
        simp at hi2 ⊢
        have := hInv.anim_lt i hi2
        omega
      · intro i hi2
        rw [ht] at hi2 ⊢
        simp at hi2 ⊢
        omega
      · intro src hsrc
        rw [hlstep] at hsrc
        simp at hsrc
        left
        rw [ht, hsrc]
      · intro src hsrc
        rw [hlinterp] at hsrc
        simp at hsrc
        rw [ht, hsrc]
      · intro i hi2 _
        rw [ht] at hi2 ⊢
        simp at hi2 ⊢
        exact hf
      · intro i hi2 hnc
        rw [ht] at hi2 hnc
        simp at hi2 hnc
        have := (hInv.anim_mode i hi2 hnc).1
        rw [hrun] at this
        exact absurd this (by simp)
      · intro i hi2 _
        rw [ht] at hi2 ⊢
        simp at hi2 ⊢
        exact ⟨hf, hi⟩
      · intro _ _ _
        rw [hlinterp]
        simp
      · rw [ht]
        simpa using hInv.rate_nonneg
      · rw [FLState.start_interp_events hf hi]
        refine (hInv.order_ok.append_create _ ?_).append_create _ ?_
        · exact hInv.live_interp_stopped hrun
        · rw [liveOf_append_create]
          have h1 : liveOf s.events Role.step = [] := hInv.live_step_stopped hrun
          simp [h1]
    · have hi2 : s.interpolation = false := by simpa using hi
      have hlstep := hInv.start_nointerp_live_step hrun hf hi2
      have hlinterp := hInv.start_nointerp_live_interp hrun hf hi2
      have ht := FLState.start_pos_nointerp hf hi2
      refine ⟨?_, ?_, ?_, ?_, ?_, ?_, ?_, ?_, ?_, ?_, ?_, ?_, ?_⟩
      · intro src hsrc
        rw [ht] at hsrc ⊢
        simp at hsrc ⊢
        rcases hsrc with h | h
        · exact Nat.lt_succ_of_lt (hInv.created_lt src h)
        · rw [h]
          exact Nat.lt_succ_self _
      · intro i hi3
        rw [ht] at hi3 ⊢
        simp at hi3 ⊢
        exact Nat.lt_succ_of_lt (hInv.cancelled_lt i hi3)
      · intro i hi3
        rw [ht] at hi3 ⊢
        simp at hi3 ⊢
        omega
      · intro i hi3
        rw [ht] at hi3 ⊢
        simp at hi3 ⊢
        exact Nat.lt_succ_of_lt (hInv.anim_lt i hi3)
      · intro i hi3
        rw [ht] at hi3 ⊢
        simp at hi3 ⊢
        exact Nat.lt_succ_of_lt (hInv.interpAnim_lt i hi3)
      · intro src hsrc
        rw [hlstep] at hsrc
        simp at hsrc
        left
        rw [ht, hsrc]
      · intro src hsrc
        rw [hlinterp] at hsrc
        exact absurd hsrc (List.not_mem_nil src)
      · intro i hi3 _
        rw [ht] at hi3 ⊢
        simp at hi3 ⊢
        exact hf
      · intro i hi3 hnc
        rw [ht] at hi3 hnc
        simp at hi3 hnc
        have := (hInv.anim_mode i hi3 hnc).1
        rw [hrun] at this
        exact absurd this (by simp)
      · intro i hi3 hnc
        rw [ht] at hi3 hnc
        simp at hi3 hnc
        have := (hInv.interp_mode i hi3 hnc).1
        rw [hrun] at this
        exact absurd this (by simp)
      · intro _ _ hint
        rw [ht] at hint
        simp [hi2] at hint
      · rw [ht]
        simpa using hInv.rate_nonneg
      · rw [ht]
        simp only
        refine hInv.order_ok.append_create _ ?_
        exact hInv.live_step_stopped hrun

/-! ### Invariant preservation by the two setters and the constructor -/

lemma FLCore.rate_update {s : FLState} (hc : FLCore s) (fps c2 : ℚ) (hfps : 0 ≤ fps) :
    FLCore ({ s with framerate := fps, currentStepTime := c2 } : FLState) :=
  ⟨hc.created_lt, hc.cancelled_lt, hc.interval_lt, hc.anim_lt, hc.interpAnim_lt,
   hc.step_link, hc.interp_link, hfps, hc.order_ok⟩

lemma FLCore.interp_update {s : FLState} (hc : FLCore s) (c : Bool) :
    FLCore ({ s with interpolation := c } : FLState) :=
  ⟨hc.created_lt, hc.cancelled_lt, hc.interval_lt, hc.anim_lt, hc.interpAnim_lt,
   hc.step_link, hc.interp_link, hc.rate_nonneg, hc.order_ok⟩

lemma FLInv.config_rate {s : FLState} (hInv : FLInv s) (hrun : s.running = false)
    (fps c2 : ℚ) (hfps : 0 ≤ fps) :
    FLInv ({ s with framerate := fps, currentStepTime := c2 } : FLState) := by
  refine ⟨?_, ?_, ?_, ?_, ?_, ?_, ?_, ?_, ?_, ?_, ?_, ?_, ?_⟩
  · exact hInv.created_lt
  · exact hInv.cancelled_lt
  · exact hInv.interval_lt
  · exact hInv.anim_lt
  · exact hInv.interpAnim_lt
  · exact hInv.step_link
  · exact hInv.interp_link
  · intro i hi hnc
    have h2 := (hInv.interval_mode i hi hnc).1
    rw [hrun] at h2
    exact absurd h2 (by simp)
  · intro i hi hnc
    have h2 := (hInv.anim_mode i hi hnc).1
    rw [hrun] at h2
    exact absurd h2 (by simp)
  · intro i hi hnc
    have h2 := (hInv.interp_mode i hi hnc).1
    rw [hrun] at h2
    exact absurd h2 (by simp)
  · intro h2
    have : s.running = true := h2
    rw [hrun] at this
    exact absurd this (by simp)
  · exact hfps
  · exact hInv.order_ok

lemma FLInv.config_interp {s : FLState} (hInv : FLInv s) (hrun : s.running = false)
    (c : Bool) :
    FLInv ({ s with interpolation := c } : FLState) := by
  refine ⟨?_, ?_, ?_, ?_, ?_, ?_, ?_, ?_, ?_, ?_, ?_, ?_, ?_⟩
  · exact hInv.created_lt
  · exact hInv.cancelled_lt
  · exact hInv.interval_lt
  · exact hInv.anim_lt
  · exact hInv.interpAnim_lt
  · exact hInv.step_link
  · exact hInv.interp_link
  · intro i hi hnc
    have h2 := (hInv.interval_mode i hi hnc).1
    rw [hrun] at h2
    exact absurd h2 (by simp)
  · intro i hi hnc
    have h2 := (hInv.anim_mode i hi hnc).1
    rw [hrun] at h2
    exact absurd h2 (by simp)
  · intro i hi hnc
    have h2 := (hInv.interp_mode i hi hnc).1
    rw [hrun] at h2
    exact absurd h2 (by simp)
  · intro h2
    have : s.running = true := h2
    rw [hrun] at this
    exact absurd this (by simp)
  · exact hInv.rate_nonneg
  · exact hInv.order_ok

lemma FLInv.setFramerate {s : FLState} (hInv : FLInv s) {fps : ℚ} (hfps : 0 ≤ fps) :
    FLInv (s.setFramerate fps) := by
  unfold FLState.setFramerate FLState.restart
  by_cases hr : s.running = true
  · rw [if_pos (by simpa using hr)]
    have hc : FLCore ({ s with framerate := fps, currentStepTime := (if fps = 0 then 1000 / 60 else 1000 / fps) } : FLState) :=
      hInv.core.rate_update fps _ hfps
    exact hc.stop_inv.start (by simp)
  · rw [if_neg (by simpa using hr)]
    exact hInv.config_rate (by simpa using hr) fps _ hfps

lemma FLInv.setInterpolation {s : FLState} (hInv : FLInv s) (c : Bool) :
    FLInv (s.setInterpolation c) := by
  unfold FLState.setInterpolation FLState.restart
  by_cases hr : s.running = true
  · rw [if_pos (by simpa using hr)]
    have hc : FLCore ({ s with interpolation := c } : FLState) :=
      hInv.core.interp_update c
    exact hc.stop_inv.start (by simp)
  · rw [if_neg (by simpa using hr)]
    exact hInv.config_interp (by simpa using hr) c

lemma flInv_new (a b : Nat) : FLInv (FrameLoop.new a b) := by
  rw [frameLoop_new_eq]
  refine ⟨?_, ?_, ?_, ?_, ?_, ?_, ?_, ?_, ?_, ?_, ?_, ?_, ?_⟩
  · intro src hsrc
    exact absurd hsrc (by simp)
  · intro i hi
    exact absurd hi (by simp)
  · intro i hi
    exact absurd hi (by simp)
  · intro i hi
    exact absurd hi (by simp)
  · intro i hi
    exact absurd hi (by simp)
  · intro src hsrc
    exact absurd hsrc (by simp [liveOf])
  · intro src hsrc
    exact absurd hsrc (by simp [liveOf])
  · intro i hi
    exact absurd hi (by simp)
  · intro i hi
    exact absurd hi (by simp)
  · intro i hi
    exact absurd hi (by simp)
  · intro h2
    exact absurd h2 (by simp)
  · norm_num
  · exact orderOK_nil

/-- Every reachable state satisfies the invariant. -/
lemma flInv_of_reachable {a b : Nat} {s : FLState} (h : Reachable a b s) : FLInv s := by
  induction h with
  | init => exact flInv_new a b
  | setFramerate _ hfps ih => exact ih.setFramerate hfps
  | setInterpolation _ ih => exact ih.setInterpolation _
  | start _ hrun ih => exact ih.start hrun
  | stop _ ih => exact ih.stop

/-! ### Idempotence of `stop` and field effects of the setters -/

lemma FLState.stop_of_clean (t : FLState) (hrun : t.running = false)
    (hia : t.interpolationAnimation = none) (hsa : t.stepAnimation = none)
    (hsi : ∀ i, t.stepInterval = some i → i ∈ cancelledOf t.events) :
    t.stop = t := by
  cases t with
  | mk running framerate interpolation currentStepTime stepCallback interpolationCallback
      stepInterval interpolationAnimation stepAnimation events nextId =>
    simp only at hrun hia hsa hsi
    subst hrun hia hsa
    unfold FLState.stop FLState.cancelOpt FLState.cancelId
    rcases stepInterval with _ | i
    · simp
    · simp [hsi i rfl]

lemma FLState.stop_stepInterval_cancelled (s : FLState) :
    ∀ i, s.stop.stepInterval = some i → i ∈ cancelledOf s.stop.events := by
  intro i hi
  rw [FLState.stop_stepInterval] at hi
  exact (FLState.mem_cancelledOf_stop s i).2 (Or.inr (Or.inl hi))

lemma FLState.stop_stop (s : FLState) : s.stop.stop = s.stop :=
  FLState.stop_of_clean s.stop (by simp) (by simp) (by simp)
    (FLState.stop_stepInterval_cancelled s)

lemma frameLoop_new_stop (a b : Nat) : (FrameLoop.new a b).stop = FrameLoop.new a b := by
  refine FLState.stop_of_clean _ (by rw [frameLoop_new_eq]) (by rw [frameLoop_new_eq])
    (by rw [frameLoop_new_eq]) ?_
  intro i hi
  rw [frameLoop_new_eq] at hi
  exact absurd hi (by simp)

namespace FLState

lemma setFramerate_eq_stopped {s : FLState} (h : s.running = false) (fps : ℚ) :
    s.setFramerate fps =
      ({ s with framerate := fps, currentStepTime := (if fps = 0 then 1000 / 60 else 1000 / fps) } : FLState) := by
  unfold FLState.setFramerate FLState.restart
  rw [if_neg (by simp [h])]

lemma setFramerate_eq_running {s : FLState} (h : s.running = true) (fps : ℚ) :
    s.setFramerate fps =
      (({ s with framerate := fps, currentStepTime := (if fps = 0 then 1000 / 60 else 1000 / fps) } : FLState)).stop.start := by
  unfold FLState.setFramerate FLState.restart
  rw [if_pos (by simp [h])]

lemma setInterpolation_eq_stopped {s : FLState} (h : s.running = false) (c : Bool) :
    s.setInterpolation c = ({ s with interpolation := c } : FLState) := by
  unfold FLState.setInterpolation FLState.restart
  rw [if_neg (by simp [h])]

lemma setInterpolation_eq_running {s : FLState} (h : s.running = true) (c : Bool) :
    s.setInterpolation c = (({ s with interpolation := c } : FLState)).stop.start := by
  unfold FLState.setInterpolation FLState.restart
  rw [if_pos (by simp [h])]

@[simp] lemma setFramerate_framerate (s : FLState) (fps : ℚ) :
    (s.setFramerate fps).framerate = fps := by
  by_cases hr : s.running = true
  · rw [setFramerate_eq_running hr]; simp
  · rw [setFramerate_eq_stopped (by simpa using hr)]

@[simp] lemma setFramerate_currentStepTime (s : FLState) (fps : ℚ) :
    (s.setFramerate fps).currentStepTime = (if fps = 0 then 1000 / 60 else 1000 / fps) := by
  by_cases hr : s.running = true
  · rw [setFramerate_eq_running hr]; simp
  · rw [setFramerate_eq_stopped (by simpa using hr)]

@[simp] lemma setFramerate_running (s : FLState) (fps : ℚ) :
    (s.setFramerate fps).running = s.running := by
  by_cases hr : s.running = true
  · rw [setFramerate_eq_running hr]; simp [hr]
  · rw [setFramerate_eq_stopped (by simpa using hr)]

@[simp] lemma setFramerate_interpolation (s : FLState) (fps : ℚ) :
    (s.setFramerate fps).interpolation = s.interpolation := by
  by_cases hr : s.running = true
  · rw [setFramerate_eq_running hr]; simp
  · rw [setFramerate_eq_stopped (by simpa using hr)]

@[simp] lemma setFramerate_stepCallback (s : FLState) (fps : ℚ) :
    (s.setFramerate fps).stepCallback = s.stepCallback := by
  by_cases hr : s.running = true
  · rw [setFramerate_eq_running hr]; simp
  · rw [setFramerate_eq_stopped (by simpa using hr)]

@[simp] lemma setFramerate_interpolationCallback (s : FLState) (fps : ℚ) :
    (s.setFramerate fps).interpolationCallback = s.interpolationCallback := by
  by_cases hr : s.running = true
  · rw [setFramerate_eq_running hr]; simp
  · rw [setFramerate_eq_stopped (by simpa using hr)]

@[simp] lemma setInterpolation_interpolation (s : FLState) (c : Bool) :
    (s.setInterpolation c).interpolation = c := by
  by_cases hr : s.running = true
  · rw [setInterpolation_eq_running hr]; simp
  · rw [setInterpolation_eq_stopped (by simpa using hr)]

@[simp] lemma setInterpolation_running (s : FLState) (c : Bool) :
    (s.setInterpolation c).running = s.running := by
  by_cases hr : s.running = true
  · rw [setInterpolation_eq_running hr]; simp [hr]
  · rw [setInterpolation_eq_stopped (by simpa using hr)]

@[simp] lemma setInterpolation_framerate (s : FLState) (c : Bool) :
    (s.setInterpolation c).framerate = s.framerate := by
  by_cases hr : s.running = true
  · rw [setInterpolation_eq_running hr]; simp
  · rw [setInterpolation_eq_stopped (by simpa using hr)]

@[simp] lemma setInterpolation_currentStepTime (s : FLState) (c : Bool) :
    (s.setInterpolation c).currentStepTime = s.currentStepTime := by
  by_cases hr : s.running = true
  · rw [setInterpolation_eq_running hr]; simp
  · rw [setInterpolation_eq_stopped (by simpa using hr)]

@[simp] lemma setInterpolation_stepCallback (s : FLState) (c : Bool) :
    (s.setInterpolation c).stepCallback = s.stepCallback := by
  by_cases hr : s.running = true
  · rw [setInterpolation_eq_running hr]; simp
  · rw [setInterpolation_eq_stopped (by simpa using hr)]

@[simp] lemma setInterpolation_interpolationCallback (s : FLState) (c : Bool) :
    (s.setInterpolation c).interpolationCallback = s.interpolationCallback := by
  by_cases hr : s.running = true
  · rw [setInterpolation_eq_running hr]; simp
  · rw [setInterpolation_eq_stopped (by simpa using hr)]

lemma setFramerate_events_stopped {s : FLState} (h : s.running = false) (fps : ℚ) :
    (s.setFramerate fps).events = s.events := by
  rw [setFramerate_eq_stopped h]

lemma setInterpolation_events_stopped {s : FLState} (h : s.running = false) (c : Bool) :
    (s.setInterpolation c).events = s.events := by
  rw [setInterpolation_eq_stopped h]

end FLState

/-- Explicit form of `setFramerate` called on a fresh instance. -/
lemma new_setFramerate_eq (a b : Nat) (fps : ℚ) :
    (FrameLoop.new a b).setFramerate fps =
      { running := false
        framerate := fps
        interpolation := false
        currentStepTime := (if fps = 0 then 1000 / 60 else 1000 / fps)
        stepCallback := a
        interpolationCallback := b
        stepInterval := none
        interpolationAnimation := none
        stepAnimation := none
        events := []
        nextId := 0 } := by
  rw [frameLoop_new_eq, FLState.setFramerate_eq_stopped rfl]

/-! ### Reconfiguration traces -/

@[simp] lemma runOps_nil (s : FLState) : runOps s [] = s := rfl

lemma runOps_cons (s : FLState) (op : Op) (t : List Op) :
    runOps s (op :: t) = runOps (applyOp s op) t := rfl

lemma reachable_applyConfig {a b : Nat} {s : FLState} (h : Reachable a b s) {op : Op}
    (hop : ConfigOp op) : Reachable a b (applyOp s op) := by
  cases op with
  | setFramerate fps => exact h.setFramerate hop
  | setInterpolation c => exact h.setInterpolation
  | start => exact (hop : False).elim
  | stop => exact (hop : False).elim

lemma reachable_runOps {a b : Nat} {s : FLState} (h : Reachable a b s) {ops : List Op}
    (hops : ∀ op ∈ ops, ConfigOp op) : Reachable a b (runOps s ops) := by
  induction ops generalizing s with
  | nil => simpa using h
  | cons op t ih =>
    rw [runOps_cons]
    exact ih (reachable_applyConfig h (hops op (by simp))) fun o ho => hops o (by simp [ho])

lemma configOps_running {s : FLState} {ops : List Op}
    (hops : ∀ op ∈ ops, ConfigOp op) : (runOps s ops).running = s.running := by
  induction ops generalizing s with
  | nil => rfl
  | cons op t ih =>
    rw [runOps_cons]
    rw [ih fun o ho => hops o (by simp [ho])]
    cases op with
    | setFramerate fps => simp [applyOp]
    | setInterpolation c => simp [applyOp]
    | start =>
      have hF : False := hops Op.start (by simp)
      exact hF.elim
    | stop =>
      have hF : False := hops Op.stop (by simp)
      exact hF.elim

/-! ### Callback identity along reachable states -/

lemma createdOf_start_cases (s : FLState) :
    ∀ src ∈ createdOf s.start.events,
      src ∈ createdOf s.events ∨
        (src.role = .step ∧ src.callback = s.stepCallback) ∨
        (src.role = .interp ∧ src.callback = s.interpolationCallback) := by
  intro src hsrc
  by_cases hf : s.framerate = 0
  · rw [FLState.start_zero hf] at hsrc
    simp at hsrc
    rcases hsrc with h | h
    · exact Or.inl h
    · right; left; rw [h]; exact ⟨rfl, rfl⟩
  · by_cases hi : s.interpolation
    · rw [FLState.start_pos_interp hf hi] at hsrc
      simp at hsrc
      rcases hsrc with h | h | h
      · exact Or.inl h
      · right; right; rw [h]; exact ⟨rfl, rfl⟩
      · right; left; rw [h]; exact ⟨rfl, rfl⟩
    · rw [FLState.start_pos_nointerp hf (by simpa using hi)] at hsrc
      simp at hsrc
      rcases hsrc with h | h
      · exact Or.inl h
      · right; left; rw [h]; exact ⟨rfl, rfl⟩

lemma callback_id_of_reachable {a b : Nat} {s : FLState} (h : Reachable a b s) :
    s.stepCallback = a ∧ s.interpolationCallback = b ∧
      ∀ src ∈ createdOf s.events, src.callback = (if src.role = .step then a else b) := by
  induction h with
  | init =>
    refine ⟨by rw [frameLoop_new_eq], by rw [frameLoop_new_eq], ?_⟩
    intro src hsrc
    rw [frameLoop_new_eq] at hsrc
    exact absurd hsrc (by simp)
  | @setFramerate s fps hprev hfps ih =>
    obtain ⟨h1, h2, h3⟩ := ih
    refine ⟨by simp [h1], by simp [h2], ?_⟩
    intro src hsrc
    by_cases hr : s.running = true
    · rw [FLState.setFramerate_eq_running hr] at hsrc
      rcases createdOf_start_cases _ src hsrc with hcase | ⟨hrole, hcb⟩ | ⟨hrole, hcb⟩
      · rw [FLState.createdOf_stop] at hcase
        exact h3 src hcase
      · rw [if_pos hrole, hcb, FLState.stop_stepCallback]
        exact h1
      · rw [if_neg (by simp [hrole]), hcb, FLState.stop_interpolationCallback]
        exact h2
    · rw [FLState.setFramerate_events_stopped (by simpa using hr)] at hsrc
      exact h3 src hsrc
  | @setInterpolation s c hprev ih =>
    obtain ⟨h1, h2, h3⟩ := ih
    refine ⟨by simp [h1], by simp [h2], ?_⟩
    intro src hsrc
    by_cases hr : s.running = true
    · rw [FLState.setInterpolation_eq_running hr] at hsrc
      rcases createdOf_start_cases _ src hsrc with hcase | ⟨hrole, hcb⟩ | ⟨hrole, hcb⟩
      · rw [FLState.createdOf_stop] at hcase
        exact h3 src hcase
      · rw [if_pos hrole, hcb, FLState.stop_stepCallback]
        exact h1
      · rw [if_neg (by simp [hrole]), hcb, FLState.stop_interpolationCallback]
        exact h2
    · rw [FLState.setInterpolation_events_stopped (by simpa using hr)] at hsrc
      exact h3 src hsrc
  | @start s hprev hrun ih =>
    obtain ⟨h1, h2, h3⟩ := ih
    refine ⟨by simp [h1], by simp [h2], ?_⟩
    intro src hsrc
    rcases createdOf_start_cases s src hsrc with hcase | ⟨hrole, hcb⟩ | ⟨hrole, hcb⟩
    · exact h3 src hcase
    · rw [if_pos hrole, hcb]
      exact h1
    · rw [if_neg (by simp [hrole]), hcb]
      exact h2
  | @stop s hprev ih =>
    obtain ⟨h1, h2, h3⟩ := ih
    refine ⟨by simp [h1], by simp [h2], ?_⟩
    intro src hsrc
    rw [FLState.createdOf_stop] at hsrc
    exact h3 src hsrc

/-! ### Behaviour of the display-sync wrapper -/

lemma AFW.cancel_not_canFire (w : AFW) : ¬ (w.cancel).canFire := by
  simp only [AFW.cancel, AFW.canFire]
  split_ifs with h
  · simp
  · simpa using h

lemma AFW.cancel_calls (w : AFW) : (w.cancel).calls = w.calls := rfl

lemma AFW.cancel_cancel (w : AFW) : w.cancel.cancel = w.cancel := by
  cases w with
  | mk curId pending nextId calls =>
    simp only [AFW.cancel]
    split_ifs <;> simp_all

lemma afw_dead_trace {w v : AFW} (h : ¬ w.canFire)
    (htr : Relation.ReflTransGen AFWStep w v) : v.calls = w.calls ∧ ¬ v.canFire := by
  induction htr with
  | refl => exact ⟨rfl, h⟩
  | tail hab hbc ih =>
    obtain ⟨hcalls, hdead⟩ := ih
    cases hbc with
    | fire cancelInside hcan => exact absurd hcan hdead
    | cancel => exact ⟨by rw [AFW.cancel_calls]; exact hcalls, AFW.cancel_not_canFire _⟩

lemma AFW.fire_false_spec (w : AFW) :
    (w.fire false).canFire ∧ (w.fire false).calls = w.calls + 1 ∧
      (w.fire false).pending = some w.nextId := by
  simp [AFW.fire, AFW.canFire]

lemma AFW.fire_true_spec (w : AFW) :
    (w.fire true).pending = none ∧ ¬ (w.fire true).canFire ∧
      (w.fire true).calls = w.calls + 1 := by
  simp [AFW.fire, AFW.cancel, AFW.canFire]

/-! ### Helpers for the unguarded-start leak -/

lemma FLState.start_events_extend (s : FLState) :
    ∃ tail, s.start.events = s.events ++ tail := by
  by_cases hf : s.framerate = 0
  · exact ⟨_, by rw [FLState.start_zero hf]⟩
  · by_cases hi : s.interpolation
    · exact ⟨_, by rw [FLState.start_pos_interp hf hi]⟩
    · exact ⟨_, by rw [FLState.start_pos_nointerp hf (by simpa using hi)]⟩

lemma live_mono_start (s : FLState) (r : Role) :
    ∀ src ∈ s.live r, src ∈ s.start.live r := by
  intro src hsrc
  have hm := mem_liveOf.1 (by simpa using hsrc)
  simp only [FLState.live_eq]
  apply mem_liveOf.2
  obtain ⟨tail, hev⟩ := FLState.start_events_extend s
  refine ⟨?_, hm.2.1, ?_⟩
  · rw [hev, createdOf_append]
    exact List.mem_append_left _ hm.1
  · rw [FLState.cancelledOf_start]
    exact hm.2.2

lemma start_new_step_mem {s : FLState} (hInv : FLInv s) :
    ∃ src2, src2 ∈ s.start.live .step ∧ s.nextId ≤ src2.id ∧
      src2.callback = s.stepCallback := by
  by_cases hf : s.framerate = 0
  · refine ⟨⟨s.nextId, .step, .displaySync, s.stepCallback⟩, ?_, le_refl _, rfl⟩
    rw [FLState.start_zero hf]
    simp only [FLState.live_eq]
    rw [liveOf_append_create]
    simp [hInv.fresh_not_cancelled]
  · by_cases hi : s.interpolation
    · refine ⟨⟨s.nextId + 1, .step, .periodicTimer (1000 / s.framerate), s.stepCallback⟩,
        ?_, Nat.le_succ s.nextId, rfl⟩
      simp only [FLState.live_eq]
      rw [FLState.start_interp_events hf hi]
      rw [liveOf_append_create, liveOf_append_create]
      simp [hInv.fresh_succ_not_cancelled]
    · refine ⟨⟨s.nextId, .step, .periodicTimer (1000 / s.framerate), s.stepCallback⟩,
        ?_, le_refl _, rfl⟩
      rw [FLState.start_pos_nointerp hf (by simpa using hi)]
      simp only [FLState.live_eq]
      rw [liveOf_append_create]
      simp [hInv.fresh_not_cancelled]

/-! ### The claims -/

/-- Claim C1: every call to `start()` from the stopped state creates exactly
the scheduling sources of the mode table: for framerate 0 one display-sync
source driving `step()` and no interpolation source; for a positive
framerate one periodic timer at `1000/framerate` ms driving `step()`, plus
one display-sync source driving `renderInterpolated()` exactly when
interpolation is enabled. -/
theorem claim1_mode_table (a b : Nat) (s : FLState) (hr : Reachable a b s)
    (hrun : s.running = false) : ModeTableOK s := by
  have hInv := flInv_of_reachable hr
  refine ⟨?_, ?_, ?_⟩
  · intro hf
    refine ⟨?_, hInv.start_zero_live_step hrun hf, hInv.start_zero_live_interp hrun hf⟩
    rw [FLState.start_zero hf]
  · intro hf hi
    refine ⟨?_, hInv.start_nointerp_live_step hrun hf hi,
      hInv.start_nointerp_live_interp hrun hf hi⟩
    rw [FLState.start_pos_nointerp hf hi]
  · intro hf hi
    refine ⟨?_, hInv.start_interp_live_step hrun hf hi,
      hInv.start_interp_live_interp hrun hf hi⟩
    rw [FLState.start_pos_interp hf hi]

/-- Witness for C1 at the concrete scenario `targetRate = 30`,
`interpolation = true`. -/
theorem claim1_mode_table_witness :
    (((FrameLoop.new 0 1).setFramerate 30).setInterpolation true).running = false ∧
    ModeTableOK (((FrameLoop.new 0 1).setFramerate 30).setInterpolation true) := by
  have hrun : (((FrameLoop.new 0 1).setFramerate 30).setInterpolation true).running = false := by
    rw [FLState.setInterpolation_running, FLState.setFramerate_running, frameLoop_new_eq]
  exact ⟨hrun, claim1_mode_table 0 1 _
    ((Reachable.init.setFramerate (by norm_num)).setInterpolation) hrun⟩

/-- Claim C2: after one `start` from a freshly configured instance, any
sequence of reconfiguration calls keeps at most one step-source handle and
at most one interpolation-source handle live at every point, and every
replacement handle is created only after the one it replaces was
cancelled (`OrderOK`). -/
theorem claim2_no_double_subscription (a b : Nat) (pre mid post : List Op)
    (hpre : ∀ op ∈ pre, ConfigOp op) (hmp : ∀ op ∈ mid ++ post, ConfigOp op) :
    ((runOps (runOps (FrameLoop.new a b) pre).start mid).live .step).length ≤ 1 ∧
    ((runOps (runOps (FrameLoop.new a b) pre).start mid).live .interp).length ≤ 1 ∧
    OrderOK (runOps (runOps (FrameLoop.new a b) pre).start mid).events ∧
    (∀ l1 l2 r, (runOps (runOps (FrameLoop.new a b) pre).start mid).events = l1 ++ l2 →
      (liveOf l1 r).length ≤ 1) := by
  have h0 : Reachable a b (runOps (FrameLoop.new a b) pre) :=
    reachable_runOps Reachable.init hpre
  have hrun0 : (runOps (FrameLoop.new a b) pre).running = false := by
    rw [configOps_running hpre, frameLoop_new_eq]
  have h2 : Reachable a b (runOps (runOps (FrameLoop.new a b) pre).start mid) :=
    reachable_runOps (h0.start hrun0) fun o ho => hmp o (by simp [ho])
  have hord := (flInv_of_reachable h2).order_ok
  refine ⟨hord.liveOf_length_le_one .step, hord.liveOf_length_le_one .interp, hord, ?_⟩
  intro l1 l2 r hsplit
  rw [hsplit] at hord
  exact hord.take.liveOf_length_le_one r

/-- Witness for C2 on the empty reconfiguration trace. -/
theorem claim2_no_double_subscription_witness :
    ((runOps (runOps (FrameLoop.new 0 1) []).start []).live .step).length ≤ 1 ∧
    ((runOps (runOps (FrameLoop.new 0 1) []).start []).live .interp).length ≤ 1 ∧
    OrderOK (runOps (runOps (FrameLoop.new 0 1) []).start []).events ∧
    (∀ l1 l2 r, (runOps (runOps (FrameLoop.new 0 1) []).start []).events = l1 ++ l2 →
      (liveOf l1 r).length ≤ 1) :=
  claim2_no_double_subscription 0 1 [] [] [] (by simp) (by simp)

/-- Claim C3: `setFramerate` stores the rate and recomputes the tick
interval; while running it is exactly `stop` followed by `start` on the
updated configuration, and while stopped it only updates the configuration,
creating and cancelling nothing; in particular `setFramerate 45` before any
`start` creates no source, sets the interval to `1000/45` ms, and the first
`start` afterwards subscribes the periodic timer at that rate. -/
theorem claim3_setFramerate (s : FLState) (fps : ℚ) (h : 0 ≤ fps) :
    SetFramerateOK s fps ∧ ∀ a b : Nat, Rate45ScenarioOK a b := by
  constructor
  · refine ⟨by simp, by simp, ?_, ?_⟩
    · exact fun hrun => FLState.setFramerate_eq_running hrun fps
    · exact fun hrun => ⟨FLState.setFramerate_eq_stopped hrun fps,
        FLState.setFramerate_events_stopped hrun fps⟩
  · intro a b
    have he := new_setFramerate_eq a b 45
    have hne : ¬ ((45 : ℚ) = 0) := by norm_num
    have hu : Reachable a b ((FrameLoop.new a b).setFramerate 45) :=
      Reachable.init.setFramerate (by norm_num)
    have hInvU := flInv_of_reachable hu
    have hrunU : ((FrameLoop.new a b).setFramerate 45).running = false := by
      rw [he]
    have hfU : ¬ ((FrameLoop.new a b).setFramerate 45).framerate = 0 := by
      rw [he]; norm_num
    have hiU : ((FrameLoop.new a b).setFramerate 45).interpolation = false := by
      rw [he]
    refine ⟨by rw [he], by rw [he]; simp [hne], ?_, ?_⟩
    · rw [hInvU.start_nointerp_live_step hrunU hfU hiU, he]
    · exact hInvU.start_nointerp_live_interp hrunU hfU hiU

/-- Witness for C3 at a fresh instance and rate 45. -/
theorem claim3_setFramerate_witness :
    (0 : ℚ) ≤ 45 ∧ SetFramerateOK (FrameLoop.new 0 1) 45 ∧
      ∀ a b : Nat, Rate45ScenarioOK a b := by
  have h := claim3_setFramerate (FrameLoop.new 0 1) 45 (by norm_num)
  exact ⟨by norm_num, h.1, h.2⟩

/-- Claim C4 as stated is false on the code: `stop()` cancels the interval
but never clears the `_stepInterval` field, so after `start(); stop()` from
a fresh instance (rate 60) the field still holds the stale id `0` instead
of none. -/
theorem claim4_stop_counterexample :
    ¬ ((FrameLoop.new 0 1).start.stop.stepInterval = none) := by
  have h1 : (FrameLoop.new 0 1).start.stop.stepInterval = some 0 := by
    rw [FLState.stop_stepInterval,
      FLState.start_pos_nointerp (by rw [frameLoop_new_eq]; norm_num)
        (by rw [frameLoop_new_eq]),
      frameLoop_new_eq]
  rw [h1]
  simp

/-- Claim C4 (amended): after `stop()` the scheduler is stopped, every live
source has been cancelled, the two animation handle fields are cleared to
none, the interval field holds at most a cancelled id, and calling `stop`
again — also before any `start` — changes nothing. -/
theorem claim4_stop_clears (a b : Nat) (s : FLState) (hr : Reachable a b s) :
    StopClearsOK s ∧ (FrameLoop.new a b).stop = FrameLoop.new a b := by
  have hInv := flInv_of_reachable hr
  refine ⟨⟨by simp, by simp, by simp, ?_, ?_,
    FLState.stop_stepInterval_cancelled s, FLState.stop_stop s⟩, frameLoop_new_stop a b⟩
  · exact hInv.core.live_stop_empty .step
  · exact hInv.core.live_stop_empty .interp

/-- Witness for the amended C4 at the running rate-60 instance. -/
theorem claim4_stop_clears_witness :
    StopClearsOK (FrameLoop.new 0 1).start ∧ (FrameLoop.new 0 1).stop = FrameLoop.new 0 1 :=
  claim4_stop_clears 0 1 (FrameLoop.new 0 1).start
    (Reachable.init.start (by rw [frameLoop_new_eq]))

/-- Claim C5: an interpolation source is live exactly when the scheduler is
running with a positive framerate and the flag enabled; `start` at rate 0
creates only the display-sync step source whatever the flag says; the flag
is always stored; and switching to a positive rate while running with the
flag on immediately resumes interpolation. -/
theorem claim5_interpolation_gating (a b : Nat) (s : FLState) (hr : Reachable a b s) :
    InterpGateOK s := by
  have hInv := flInv_of_reachable hr
  refine ⟨?_, ?_, fun c => by simp, ?_⟩
  · constructor
    · intro hne
      obtain ⟨src, hsrc⟩ := List.exists_mem_of_ne_nil _ hne
      have hm := mem_liveOf.1 (by simpa using hsrc)
      have hl := hInv.interp_link src hsrc
      obtain ⟨hrun2, hfr, hip⟩ := hInv.interp_mode src.id hl hm.2.2
      exact ⟨hrun2, lt_of_le_of_ne hInv.rate_nonneg (Ne.symm hfr), hip⟩
    · rintro ⟨hrun2, hfr, hip⟩
      exact hInv.interp_exist hrun2 (ne_of_gt hfr) hip
  · intro hf
    rw [FLState.start_zero hf]
  · intro fps hfps hrun2 hip
    have hInv2 := flInv_of_reachable (hr.setFramerate (le_of_lt hfps))
    apply hInv2.interp_exist
    · rw [FLState.setFramerate_running]; exact hrun2
    · rw [FLState.setFramerate_framerate]; exact ne_of_gt hfps
    · rw [FLState.setFramerate_interpolation]; exact hip

/-- Witness for C5 at a fresh instance. -/
theorem claim5_interpolation_gating_witness : InterpGateOK (FrameLoop.new 0 1) :=
  claim5_interpolation_gating 0 1 (FrameLoop.new 0 1) Reachable.init

/-- Claim C6: for every admissible rate, `setFramerate` stores the rate,
sets the engine-visible tick interval to `1000/rate` for positive rates and
to the fixed fallback `1000/60` for rate 0, and the resulting interval is
positive. -/
theorem claim6_tick_interval (s : FLState) (fps : ℚ) (h : 0 ≤ fps) :
    (s.setFramerate fps).framerate = fps ∧
    (s.setFramerate fps).currentStepTime = (if fps = 0 then 1000 / 60 else 1000 / fps) ∧
    0 < (s.setFramerate fps).currentStepTime := by
  refine ⟨by simp, by simp, ?_⟩
  rw [FLState.setFramerate_currentStepTime]
  by_cases hf : fps = 0
  · rw [if_pos hf]; norm_num
  · rw [if_neg hf]
    exact div_pos (by norm_num) (lt_of_le_of_ne h (Ne.symm hf))

/-- Witness for C6 at rate 30. -/
theorem claim6_tick_interval_witness :
    (0 : ℚ) ≤ 30 ∧
    ((FrameLoop.new 0 1).setFramerate 30).framerate = 30 ∧
    ((FrameLoop.new 0 1).setFramerate 30).currentStepTime =
      (if (30 : ℚ) = 0 then 1000 / 60 else 1000 / 30) ∧
    0 < ((FrameLoop.new 0 1).setFramerate 30).currentStepTime :=
  ⟨by norm_num, claim6_tick_interval (FrameLoop.new 0 1) 30 (by norm_num)⟩

/-- Claim C7: calling `start()` while already running cancels nothing,
creates a second step subscription, and overwrites the handle field that
referenced the still-live first step source, which therefore leaks. -/
theorem claim7_start_while_running_leaks (a b : Nat) (s : FLState) (hr : Reachable a b s)
    (hrun : s.running = true) :
    ∀ src ∈ s.live .step, StartLeakOK s src := by
  have hInv := flInv_of_reachable hr
  intro src hsrc
  have hm := mem_liveOf.1 (by simpa using hsrc)
  have hlt : src.id < s.nextId := hInv.created_lt src hm.1
  obtain ⟨src2, hsrc2, hle2, hcb2⟩ := start_new_step_mem hInv
  refine ⟨live_mono_start s .step src hsrc, FLState.cancelledOf_start s,
    ⟨src2, hsrc2, by omega, hcb2⟩, ?_, ?_⟩
  · by_cases hf : s.framerate = 0
    · rw [FLState.start_zero hf]
      intro hcon
      simp only at hcon
      exact (hInv.interval_mode src.id hcon hm.2.2).2 hf
    · by_cases hi : s.interpolation
      · rw [FLState.start_pos_interp hf hi]
        intro hcon
        simp only [Option.some.injEq] at hcon
        omega
      · rw [FLState.start_pos_nointerp hf (by simpa using hi)]
        intro hcon
        simp only [Option.some.injEq] at hcon
        omega
  · by_cases hf : s.framerate = 0
    · rw [FLState.start_zero hf]
      intro hcon
      simp only [Option.some.injEq] at hcon
      omega
    · by_cases hi : s.interpolation
      · rw [FLState.start_pos_interp hf hi]
        intro hcon
        simp only at hcon
        exact hf (hInv.anim_mode src.id hcon hm.2.2).2
      · rw [FLState.start_pos_nointerp hf (by simpa using hi)]
        intro hcon
        simp only at hcon
        exact hf (hInv.anim_mode src.id hcon hm.2.2).2

/-- Witness for C7: the running rate-60 instance leaks its interval source
when `start` is called again. -/
theorem claim7_start_while_running_leaks_witness :
    (FrameLoop.new 0 1).start.running = true ∧
    (⟨0, .step, .periodicTimer (1000 / 60), 0⟩ : Source) ∈
      (FrameLoop.new 0 1).start.live .step ∧
    StartLeakOK (FrameLoop.new 0 1).start ⟨0, .step, .periodicTimer (1000 / 60), 0⟩ := by
  have hr : Reachable 0 1 (FrameLoop.new 0 1).start :=
    Reachable.init.start (by rw [frameLoop_new_eq])
  have hInv0 := flInv_new 0 1
  have hmem : (⟨0, .step, .periodicTimer (1000 / 60), 0⟩ : Source) ∈
      (FrameLoop.new 0 1).start.live .step := by
    have hl := hInv0.start_nointerp_live_step (by rw [frameLoop_new_eq])
      (by rw [frameLoop_new_eq]; norm_num) (by rw [frameLoop_new_eq])
    rw [hl, frameLoop_new_eq]
    simp
  exact ⟨by simp, hmem,
    claim7_start_while_running_leaks 0 1 (FrameLoop.new 0 1).start hr (by simp) _ hmem⟩

/-- Claim C8: the display-sync adapter resubmits itself before invoking the
callback, so it fires once per delivered refresh cycle and stays scheduled;
its cancel handle stops the next and all later invocations, also when
invoked from inside the callback; and cancelling twice equals cancelling
once. -/
theorem claim8_display_sync_wrapper (w v : AFW) :
    (w.canFire →
      (w.fire false).canFire ∧ (w.fire false).calls = w.calls + 1 ∧
        (w.fire false).pending = some w.nextId) ∧
    (¬ (w.cancel).canFire) ∧
    (¬ w.canFire → Relation.ReflTransGen AFWStep w v → v.calls = w.calls) ∧
    ((w.fire true).pending = none ∧ ¬ (w.fire true).canFire) ∧
    w.cancel.cancel = w.cancel := by
  refine ⟨fun _ => AFW.fire_false_spec w, AFW.cancel_not_canFire w, ?_,
    ⟨(AFW.fire_true_spec w).1, (AFW.fire_true_spec w).2.1⟩, AFW.cancel_cancel w⟩
  intro hdead htr
  exact (afw_dead_trace hdead htr).1

/-- Witness for C8 on the freshly created wrapper. -/
theorem claim8_display_sync_wrapper_witness :
    afwInit.canFire ∧ ¬ afwInit.cancel.canFire ∧
    ((afwInit.fire false).canFire ∧ (afwInit.fire false).calls = afwInit.calls + 1 ∧
      (afwInit.fire false).pending = some afwInit.nextId) ∧
    afwInit.cancel.cancel.calls = afwInit.cancel.calls := by
  refine ⟨by decide, (claim8_display_sync_wrapper afwInit afwInit).2.1,
    (claim8_display_sync_wrapper afwInit afwInit).1 (by decide), ?_⟩
  exact (claim8_display_sync_wrapper afwInit.cancel afwInit.cancel.cancel).2.2.1
    (by decide) (Relation.ReflTransGen.single (AFWStep.cancel afwInit.cancel))

/-- Claim C9: the `step` and `renderInterpolated` callback references are
bound once at construction; every source ever subscribed — including those
subscribed by a restart while running — uses exactly those references, and
reconfiguration never changes them. -/
theorem claim9_callback_identity (a b : Nat) (s : FLState) (hr : Reachable a b s) :
    CallbackIdOK a b s := by
  obtain ⟨h1, h2, h3⟩ := callback_id_of_reachable hr
  exact ⟨h1, h2, h3, fun fps => ⟨by simp [h1], by simp [h2]⟩,
    fun c => ⟨by simp [h1], by simp [h2]⟩⟩

/-- Witness for C9 after a restart while running. -/
theorem claim9_callback_identity_witness :
    CallbackIdOK 0 1 ((FrameLoop.new 0 1).start.setFramerate 30) :=
  claim9_callback_identity 0 1 _
    ((Reachable.init.start (by rw [frameLoop_new_eq])).setFramerate (by norm_num))

/-- Claim C10: a newly constructed `FrameLoop` is stopped with the default
configuration (framerate 60, interpolation off), holds no handle in any of
the three fields, has created no subscription, and already exposes the tick
interval `1000/60` ms. -/
theorem claim10_constructor_state (a b : Nat) :
    (FrameLoop.new a b).running = false ∧
    (FrameLoop.new a b).framerate = 60 ∧
    (FrameLoop.new a b).interpolation = false ∧
    (FrameLoop.new a b).stepInterval = none ∧
    (FrameLoop.new a b).interpolationAnimation = none ∧
    (FrameLoop.new a b).stepAnimation = none ∧
    (FrameLoop.new a b).currentStepTime = 1000 / 60 ∧
    (FrameLoop.new a b).events = [] := by
  rw [frameLoop_new_eq]
  exact ⟨rfl, rfl, rfl, rfl, rfl, rfl, rfl, rfl⟩
